import Mathlib

/-!
Verification of the MegaEmu artifact integrity and signing pipeline.

This development shallowly embeds the verification-relevant parts of
`scripts/manage_security.py`, `scripts/manage_package.py` and
`scripts/manage_dist.py`.  Files are byte lists (`List Nat`); an
unreadable file is `none`.  The external `hashlib` digests are
abstracted as a `HashModel` (an arbitrary function of the file bytes,
constrained only by the real shape of hex digests: fixed hex length per
algorithm, hex-digit characters).  The external `cryptography` RSA-PSS
operations are modelled symbolically: a signature is an opaque record of
the padding parameters, the exact message bytes passed to `sign`, and
the key identity; verification succeeds exactly on the signature the
matching parameters, message and key would produce.  This is the
standard ideal (perfectly correct, perfectly unforgeable) model of a
signature scheme.
-/

/-- Whitespace test matching Python's `str.split` / `str.strip` default
separators for the characters that can actually occur here. -/
def isWs (c : Char) : Bool :=
  c = ' ' || c = '\n' || c = '\t' || c = '\r'

/-- Lowercase hex digit, the character set of `hashlib` hex digests. -/
def isLowerHexDigit (c : Char) : Bool :=
  c.isDigit || (decide ('a' ≤ c) && decide (c ≤ 'f'))

/-- Longest whitespace-free prefix of a character list. -/
def takeNonWs : List Char → List Char
  | [] => []
  | c :: cs => if isWs c then [] else c :: takeNonWs cs

/-- First whitespace-delimited token of a character list (empty if none).
Models Python's `s.strip().split()[0]` on well-formed content. -/
def firstTokenL : List Char → List Char
  | [] => []
  | c :: cs => if isWs c then firstTokenL cs else c :: takeNonWs cs

/-- First whitespace-delimited token of a string. -/
def firstToken (s : String) : String :=
  String.mk (firstTokenL s.toList)

/-- Python dict lookup on an association-list model of a dict. -/
def dictGet (k : String) : List (String × String) → Option String
  | [] => none
  | (k₀, v) :: rest => if k = k₀ then some v else dictGet k rest

/-- Python's `str.endswith`. -/
def endsWithL (s suffix : String) : Bool :=
  let l := s.toList
  let suf := suffix.toList
  decide (suf.length ≤ l.length) && decide (l.drop (l.length - suf.length) = suf)

/-- Python's `str.encode()` for the ASCII strings used here: the byte
sequence of the string's characters. -/
def strBytes (s : String) : List Nat :=
  s.toList.map (fun c => c.toNat)

/-- Length in hex characters of a `hashlib` hex digest: 64 for sha256,
128 for sha512 (the only algorithms the pipeline configures). -/
def digestHexLen (alg : String) : Nat :=
  if alg = "sha256" then 64 else 128

/-- Abstract model of the `hashlib` hex/raw digests.  The digest value
is arbitrary (we never rely on collision resistance without saying so),
but its shape is the real one: a fixed-length string of hex digits. -/
structure HashModel where
  hashHex : String → List Nat → String
  hashRaw : String → List Nat → List Nat
  hashHex_length : ∀ alg data, (hashHex alg data).length = digestHexLen alg
  hashHex_digits : ∀ alg data c, c ∈ (hashHex alg data).toList → isLowerHexDigit c = true

/-- RSA-PSS padding parameters: the MGF1 hash, the salt length
(`none` models `padding.PSS.MAX_LENGTH`), and the signature hash
algorithm argument of `sign`/`verify`. -/
structure PSS where
  mgfHash : String
  saltLen : Option Nat
  sigHash : String
deriving DecidableEq

/-- Symbolic signature: records the parameters, the message bytes that
were signed and the signing key's identity.  A public key matches the
private key of the same identity. -/
structure Sig where
  params : PSS
  message : List Nat
  key : Nat
deriving DecidableEq

/-- Symbolic `private_key.sign(message, padding, algorithm)`. -/
def rsaSign (p : PSS) (m : List Nat) (k : Nat) : Sig :=
  { params := p, message := m, key := k }

/-- Symbolic `public_key.verify(signature, message, padding, algorithm)`:
succeeds exactly on the signature that the same parameters, message and
key pair produce. -/
def rsaVerify (s : Sig) (m : List Nat) (p : PSS) (k : Nat) : Bool :=
  decide (s = rsaSign p m k)

namespace ManageSecurity

/-- Config `SECURITY_CONFIG['hashes']['algorithms']`. -/
def securityHashAlgorithms : List String := ["sha256", "sha512"]

/-- Config `SECURITY_CONFIG['hashes']['extensions']` (same list as
`SECURITY_CONFIG['signatures']['extensions']`). -/
def securityExtensions : List String := [".exe", ".dll", ".so", ".dylib", ".rom"]

/-- Config `SECURITY_CONFIG['verification']['check_hashes']`. -/
def securityCheckHashes : Bool := true

/-- Config `SECURITY_CONFIG['verification']['check_signatures']`. -/
def securityCheckSignatures : Bool := true

/-- PSS parameters used by both `sign_file` and `verify_file`:
`padding.PSS(mgf=padding.MGF1(hashes.SHA512()), salt_length=64)` with
`hashes.SHA512()` as the signature hash. -/
def securityPSS : PSS :=
  { mgfHash := "sha512", saltLen := some 64, sigHash := "sha512" }

/-- Function `calculate_hashes(path)`: one hex digest per configured algorithm.
The whole body is wrapped in `try/except`; an unreadable file raises
inside the loop, the handler prints an error and returns `{}` — hence
the `none ↦ []` branch. -/
def calculate_hashes (H : HashModel) (file : Option (List Nat)) : List (String × String) :=
  match file with
  | none => []
  | some data => securityHashAlgorithms.map (fun alg => (alg, H.hashHex alg data))

/-- The `hash` command of `main` (lines 424-441): calls
`calculate_hashes`, exits 1 on a falsy (empty) result, otherwise writes
the JSON file and exits 0 (the write itself is modelled as succeeding). -/
def hashCommand (H : HashModel) (file : Option (List Nat)) : Nat :=
  let hashes := calculate_hashes H file
  if hashes.isEmpty then 1 else 0

/-- Function `sign_file(path)`: loads the private key (absent key raises, caught:
`None`), streams the file into a SHA-512 hasher (unreadable file raises,
caught: `None`), and signs the raw digest bytes with `securityPSS`. -/
def sign_file (H : HashModel) (privKey : Option Nat) (file : Option (List Nat)) : Option Sig :=
  match privKey, file with
  | some k, some data => some (rsaSign securityPSS (H.hashRaw "sha512" data) k)
  | _, _ => none

/-- The distinct observable outcomes of `verify_file` (each outcome
prints a different message; all but the first two map to `False`). -/
inductive VerifyResult where
  | skippedExtension
  | valid
  | missingHashFile
  | missingHashAlg (alg : String)
  | hashMismatch (alg : String)
  | missingSigFile
  | sigInvalid
  | exceptionCaught
deriving DecidableEq

/-- Booleans `True`/`False` as returned by the Python `verify_file`. -/
def VerifyResult.toBool : VerifyResult → Bool
  | .skippedExtension => true
  | .valid => true
  | _ => false

/-- The persisted state `verify_file` consults: the
`security/hashes/<name>.json` dict, the `security/signatures/<name>.sig`
bytes, and the public key (`none` models a missing/unreadable key file,
whose open raises into the outer `except`). -/
structure SecurityState where
  storedHashes : Option (List (String × String))
  storedSig : Option Sig
  pubKey : Option Nat
deriving DecidableEq

/-- The `for algorithm in SECURITY_CONFIG['hashes']['algorithms']` loop
of `verify_file`: missing saved entry, then mismatch, checked per
algorithm in list order with an early return.  A missing entry of
`current` would be a Python `KeyError` swallowed by the outer `except`
(it cannot happen for the configured algorithms). -/
def checkHashLoop (saved current : List (String × String)) : List String → Option VerifyResult
  | [] => none
  | alg :: rest =>
    match dictGet alg saved with
    | none => some (.missingHashAlg alg)
    | some storedHex =>
      match dictGet alg current with
      | none => some .exceptionCaught
      | some currentHex =>
        if storedHex ≠ currentHex then some (.hashMismatch alg)
        else checkHashLoop saved current rest

/-- The hash-checking section of `verify_file` (lines 265-288):
missing `<name>.json` is its own failure; otherwise fresh digests are
recomputed and compared. -/
def hashSection (H : HashModel) (data : List Nat) (st : SecurityState) : Option VerifyResult :=
  match st.storedHashes with
  | none => some .missingHashFile
  | some saved => checkHashLoop saved (calculate_hashes H (some data)) securityHashAlgorithms

/-- The signature-checking section of `verify_file` (lines 291-339):
loads the public key (absent: exception to the outer handler), then the
`.sig` file (absent: its own failure), recomputes the raw SHA-512 digest
and verifies with `securityPSS`. -/
def sigSection (H : HashModel) (data : List Nat) (st : SecurityState) : Option VerifyResult :=
  match st.pubKey with
  | none => some .exceptionCaught
  | some pk =>
    match st.storedSig with
    | none => some .missingSigFile
    | some s =>
      if rsaVerify s (H.hashRaw "sha512" data) securityPSS pk then none
      else some .sigInvalid

/-- Function `verify_file(path)`: returns `True` at once when the path ends in
none of the configured extensions; otherwise runs the hash section, then
the signature section, each able to fail first, and returns `True` when
both pass. -/
def verify_file (H : HashModel) (path : String) (data : List Nat)
    (st : SecurityState) : VerifyResult :=
  if (securityExtensions.any (fun ext => endsWithL path ext)) = false then
    .skippedExtension
  else
    match (if securityCheckHashes then hashSection H data st else none) with
    | some r => r
    | none =>
      match (if securityCheckSignatures then sigSection H data st else none) with
      | some r => r
      | none => .valid

/-- The `verify` command of `main` (lines 462-464): exit code 0 on
`True`, 1 otherwise. -/
def verifyExit (H : HashModel) (path : String) (data : List Nat)
    (st : SecurityState) : Nat :=
  if (verify_file H path data st).toBool then 0 else 1

end ManageSecurity

namespace ManagePackage

/-- Config `PACKAGE_CONFIG['verification']['enabled']`. -/
def packageVerificationEnabled : Bool := true

/-- Config `PACKAGE_CONFIG['verification']['algorithms']`. -/
def packageAlgorithms : List String := ["sha256", "sha512"]

/-- Config `PACKAGE_CONFIG['verification']['signature']`. -/
def packageSignatureEnabled : Bool := true

/-- PSS parameters of the signing call inside `verify_package`:
`padding.PSS(mgf=padding.MGF1(hashes.SHA256()),
salt_length=padding.PSS.MAX_LENGTH)` with `hashes.SHA256()`. -/
def packagePSS : PSS :=
  { mgfHash := "sha256", saltLen := none, sigHash := "sha256" }

/-- Contents written to `<package>.<algorithm>`:
`f'{hashes[algorithm]} {os.path.basename(package)}\n'`. -/
def hashFileContent (hex name : String) : String :=
  String.mk (hex.toList ++ ' ' :: (name.toList ++ ['\n']))

/-- The metadata files living next to a package:
`<package>.<algorithm>` text files and the `<package>.sig` file
(the signature is written base64-encoded and read back base64-decoded,
a round trip the symbolic `Sig` value stands for). -/
structure PackageStored where
  hashFiles : List (String × String)
  sigFile : Option Sig
deriving DecidableEq

/-- The fresh digest files `verify_package` writes, one per algorithm. -/
def packageHashFiles (H : HashModel) (name : String) (data : List Nat) :
    List (String × String) :=
  packageAlgorithms.map (fun alg => (alg, hashFileContent (H.hashHex alg data) name))

/-- Function `verify_package(package)` (lines 482-544): recomputes every digest
of the current bytes and overwrites the `<package>.<algorithm>` files,
then loads the private key (absent: exception caught, `False`, with the
digest files already rewritten), signs the ASCII hex of the sha256
digest with `packagePSS` and overwrites `<package>.sig`, and returns
`True`.  Nothing is ever compared against `prior`. -/
def verify_package (H : HashModel) (name : String) (file : Option (List Nat))
    (privKey : Option Nat) (prior : PackageStored) : Bool × PackageStored :=
  if packageVerificationEnabled = false then (true, prior)
  else
    match file with
    | none => (false, prior)
    | some data =>
      let newHashes := packageHashFiles H name data
      if packageSignatureEnabled then
        match privKey with
        | none => (false, { hashFiles := newHashes, sigFile := prior.sigFile })
        | some k =>
          (true, { hashFiles := newHashes,
                   sigFile := some (rsaSign packagePSS
                     (strBytes (H.hashHex "sha256" data)) k) })
      else (true, { hashFiles := newHashes, sigFile := prior.sigFile })

end ManagePackage

namespace ManageDist

/-- Config `DIST_CONFIG['verification']['enabled']`. -/
def distVerificationEnabled : Bool := true

/-- Config `DIST_CONFIG['verification']['algorithms']`. -/
def distAlgorithms : List String := ["sha256", "sha512"]

/-- Config `DIST_CONFIG['verification']['signature']`. -/
def distSignatureEnabled : Bool := true

/-- PSS parameters of the verification call inside `verify_packages`:
`padding.PSS(mgf=padding.MGF1(hashes.SHA256()),
salt_length=padding.PSS.MAX_LENGTH)` with `hashes.SHA256()`. -/
def distPSS : PSS :=
  { mgfHash := "sha256", saltLen := none, sigHash := "sha256" }

/-- One package as `verify_packages` sees it: its basename, current
bytes, the `<path>.<algorithm>` hash files (dict from algorithm to file
content) and the `<path>.sig` file. -/
structure DistPackage where
  name : String
  file : List Nat
  hashFiles : List (String × String)
  sigFile : Option Sig
deriving DecidableEq

/-- The distinct failure outcomes of the per-package checks (each prints
its own message before `verify_packages` returns `False`). -/
inductive DistFail where
  | missingHash (alg : String)
  | hashMismatch (alg : String)
  | missingSig
  | sigInvalid
deriving DecidableEq

/-- The per-package `for algorithm in ...` loop (lines 176-195): read
`<path>.<algorithm>`, take the first token as the expected digest,
compare with the recomputed digest, early-return on failure.  The `acc`
argument is Python's `expected_hash` variable, which survives the loop:
on success the LAST algorithm's expected digest is returned. -/
def distHashLoop (H : HashModel) (data : List Nat) (hashFiles : List (String × String)) :
    List String → String → Except DistFail String
  | [], acc => Except.ok acc
  | alg :: rest, _acc =>
    match dictGet alg hashFiles with
    | none => Except.error (.missingHash alg)
    | some content =>
      let expected := firstToken content
      if H.hashHex alg data ≠ expected then Except.error (.hashMismatch alg)
      else distHashLoop H data hashFiles rest expected

/-- The per-package body of `verify_packages` (lines 171-228): hash
loop, then — with `DIST_CONFIG['verification']['signature']` on — the
signature check of the stored `.sig` against the ASCII encoding of the
leftover `expected_hash` using `distPSS` and the public key. -/
def distVerifyOne (H : HashModel) (pub : Nat) (p : DistPackage) : Option DistFail :=
  match distHashLoop H p.file p.hashFiles distAlgorithms "" with
  | Except.error f => some f
  | Except.ok expected =>
    if distSignatureEnabled then
      match p.sigFile with
      | none => some .missingSig
      | some s =>
        if rsaVerify s (strBytes expected) distPSS pub then none
        else some .sigInvalid
    else none

/-- What `verify_packages` prints, per package. -/
inductive DistMsg where
  | checking (name : String)
  | failed (f : DistFail)
  | allVerified
deriving DecidableEq

/-- The nested `for platform_name ... for path ...` loops of
`verify_packages`, flattened to the list of packages they visit in
order: announce each package, stop at the first failure (the `return
False` aborts the whole function), print the success banner at the
end. -/
def verifyLoop (H : HashModel) (pub : Nat) : List DistPackage → Bool × List DistMsg
  | [] => (true, [.allVerified])
  | p :: rest =>
    match distVerifyOne H pub p with
    | some f => (false, [.checking p.name, .failed f])
    | none =>
      let r := verifyLoop H pub rest
      (r.1, .checking p.name :: r.2)

/-- Function `verify_packages(packages)` (lines 155-234): immediately `True` when
verification is disabled, else the loop over every platform's package
list in order. -/
def verify_packages (H : HashModel) (pub : Nat)
    (batch : List (String × List DistPackage)) : Bool × List DistMsg :=
  if distVerificationEnabled = false then (true, [])
  else verifyLoop H pub (batch.map Prod.snd).flatten

/-- The three distribution channels of `main`. -/
inductive Channel where
  | github
  | sourceforge
  | itch
deriving DecidableEq

/-- The CLI name of each channel. -/
def channelName : Channel → String
  | .github => "github"
  | .sourceforge => "sourceforge"
  | .itch => "itch"

/-- Test `platform == '<channel>' or platform == 'all'`. -/
def selects (platform : String) (c : Channel) : Bool :=
  platform = channelName c || platform = "all"

/-- The publish sequence of `main` (lines 546-559): each selected
channel is attempted in order github, sourceforge, itch; a failing
publish exits 1 at once.  `chOk` abstracts the outcome of the external
`publish_*` call; the returned list records which publish calls ran. -/
def runChannels (chOk : Channel → Bool) (sel : Channel → Bool) :
    List Channel → Nat × List Channel
  | [] => (0, [])
  | c :: rest =>
    if sel c then
      if chOk c then
        let r := runChannels chOk sel rest
        (r.1, c :: r.2)
      else (1, [c])
    else runChannels chOk sel rest

/-- The `publish` command of `main` (lines 527-559): platform validity
check, the `if not packages` check on the collected batch, then
`verify_packages` gating every publish, then the channel sequence. -/
def publishCommand (H : HashModel) (pub : Nat) (platform : String)
    (batch : List (String × List DistPackage)) (chOk : Channel → Bool) :
    Nat × List Channel :=
  if (["github", "sourceforge", "itch", "all"].contains platform) = false then (1, [])
  else if batch.isEmpty then (1, [])
  else if (verify_packages H pub batch).1 = false then (1, [])
  else runChannels chOk (selects platform) [.github, .sourceforge, .itch]

end ManageDist

/-- Character of the toy digest: depends on the parity of the byte sum,
so that distinct small inputs get distinct digests. -/
def toyHexChar (data : List Nat) : Char :=
  if data.sum % 2 = 0 then 'a' else 'b'

/-- Concrete hash model used to evaluate the theorems on explicit
inputs: the hex digest is a correctly-sized string of hex digits whose
value depends on the data. -/
def toyHash : HashModel where
  hashHex alg data := String.mk (List.replicate (digestHexLen alg) (toyHexChar data))
  hashRaw alg data := [digestHexLen alg, data.sum % 2]
  hashHex_length := by
    intro alg data
    simp [String.length]
  hashHex_digits := by
    intro alg data c hc
    have hx : c = toyHexChar data := List.eq_of_mem_replicate (by simpa [String.toList] using hc)
    subst hx
    unfold toyHexChar
    by_cases h : data.sum % 2 = 0 <;> simp [h] <;> decide

lemma not_ws_of_hexDigit (c : Char) (h : isLowerHexDigit c = true) : isWs c = false := by
  by_cases h1 : c = ' '
  · subst h1; exact absurd h (by decide)
  by_cases h2 : c = '\n'
  · subst h2; exact absurd h (by decide)
  by_cases h3 : c = '\t'
  · subst h3; exact absurd h (by decide)
  by_cases h4 : c = '\r'
  · subst h4; exact absurd h (by decide)
  simp [isWs, h1, h2, h3, h4]

lemma takeNonWs_append (l tail : List Char) (h : ∀ c ∈ l, isWs c = false) :
    takeNonWs (l ++ ' ' :: tail) = l := by
  induction l with
  | nil => rfl
  | cons c cs ih =>
    have hc := h c (List.mem_cons_self _ _)
    simp [takeNonWs, hc, ih (fun x hx => h x (List.mem_cons_of_mem _ hx))]

lemma firstTokenL_append (l tail : List Char) (h : ∀ c ∈ l, isWs c = false)
    (hne : l ≠ []) : firstTokenL (l ++ ' ' :: tail) = l := by
  cases l with
  | nil => exact absurd rfl hne
  | cons c cs =>
    have hc := h c (List.mem_cons_self _ _)
    simp [firstTokenL, hc,
      takeNonWs_append cs tail (fun x hx => h x (List.mem_cons_of_mem _ hx))]

lemma firstToken_hashFileContent (hex name : String)
    (hne : hex.toList ≠ []) (hws : ∀ c ∈ hex.toList, isWs c = false) :
    firstToken (ManagePackage.hashFileContent hex name) = hex := by
  show String.mk (firstTokenL (hex.toList ++ ' ' :: (name.toList ++ ['\n']))) = hex
  rw [firstTokenL_append _ _ hws hne]
  cases hex
  rfl

lemma digestHexLen_pos (alg : String) : 0 < digestHexLen alg := by
  unfold digestHexLen
  split <;> norm_num

lemma hashHex_toList_length (H : HashModel) (alg : String) (data : List Nat) :
    (H.hashHex alg data).toList.length = digestHexLen alg :=
  H.hashHex_length alg data

lemma hashHex_toList_ne_nil (H : HashModel) (alg : String) (data : List Nat) :
    (H.hashHex alg data).toList ≠ [] := by
  intro h
  have hl := hashHex_toList_length H alg data
  rw [h] at hl
  exact absurd hl.symm (Nat.ne_of_gt (digestHexLen_pos alg))

lemma hashHex_not_ws (H : HashModel) (alg : String) (data : List Nat) :
    ∀ c ∈ (H.hashHex alg data).toList, isWs c = false :=
  fun c hc => not_ws_of_hexDigit c (H.hashHex_digits alg data c hc)

lemma strBytes_length (s : String) : (strBytes s).length = s.toList.length :=
  List.length_map _ _

lemma strBytes_hashHex_ne (H : HashModel) (data₁ data₂ : List Nat) :
    strBytes (H.hashHex "sha256" data₁) ≠ strBytes (H.hashHex "sha512" data₂) := by
  intro h
  have hl := congrArg List.length h
  rw [strBytes_length, strBytes_length, hashHex_toList_length, hashHex_toList_length] at hl
  exact absurd hl (by decide)

namespace ManageSecurity

lemma dictGet_calculate_sha256 (H : HashModel) (data : List Nat) :
    dictGet "sha256" (calculate_hashes H (some data)) = some (H.hashHex "sha256" data) := by
  rfl

lemma dictGet_calculate_sha512 (H : HashModel) (data : List Nat) :
    dictGet "sha512" (calculate_hashes H (some data)) = some (H.hashHex "sha512" data) := by
  rfl

lemma checkHashLoop_self (L : List (String × String)) (algs : List String)
    (h : ∀ alg ∈ algs, dictGet alg L ≠ none) :
    checkHashLoop L L algs = none := by
  induction algs with
  | nil => rfl
  | cons a rest ih =>
    have ha := h a (List.mem_cons_self _ _)
    match hv : dictGet a L with
    | none => exact absurd hv ha
    | some v =>
      simp [checkHashLoop, hv, ih (fun x hx => h x (List.mem_cons_of_mem _ hx))]

lemma hashSection_roundtrip (H : HashModel) (data : List Nat)
    (st : SecurityState) (hst : st.storedHashes = some (calculate_hashes H (some data))) :
    hashSection H data st = none := by
  unfold hashSection
  rw [hst]
  refine checkHashLoop_self _ _ ?_
  intro alg halg
  fin_cases halg
  · rw [dictGet_calculate_sha256]; exact Option.noConfusion
  · rw [dictGet_calculate_sha512]; exact Option.noConfusion

lemma sigSection_roundtrip (H : HashModel) (data : List Nat) (k : Nat)
    (st : SecurityState) (hpk : st.pubKey = some k)
    (hsig : st.storedSig = some (rsaSign securityPSS (H.hashRaw "sha512" data) k)) :
    sigSection H data st = none := by
  unfold sigSection
  rw [hpk, hsig]
  simp [rsaVerify]

lemma verify_file_of_sections (H : HashModel) (path : String) (data : List Nat)
    (st : SecurityState)
    (hext : (securityExtensions.any fun ext => endsWithL path ext) = true)
    (hh : hashSection H data st = none)
    (hs : sigSection H data st = none) :
    verify_file H path data st = .valid := by
  unfold verify_file
  rw [hext]
  simp [securityCheckHashes, securityCheckSignatures, hh, hs]

lemma verify_file_hash_fail (H : HashModel) (path : String) (data : List Nat)
    (st : SecurityState) (r : VerifyResult)
    (hext : (securityExtensions.any fun ext => endsWithL path ext) = true)
    (hh : hashSection H data st = some r) :
    verify_file H path data st = r := by
  unfold verify_file
  rw [hext]
  simp [securityCheckHashes, hh]

lemma verify_file_sig_fail (H : HashModel) (path : String) (data : List Nat)
    (st : SecurityState) (r : VerifyResult)
    (hext : (securityExtensions.any fun ext => endsWithL path ext) = true)
    (hh : hashSection H data st = none)
    (hs : sigSection H data st = some r) :
    verify_file H path data st = r := by
  unfold verify_file
  rw [hext]
  simp [securityCheckHashes, securityCheckSignatures, hh, hs]

end ManageSecurity

/-- Claim C1: round-trip — verifying an unmodified artifact against the
digest set `calculate_hashes` computed over the canonical `{sha256,
sha512}` set and the signature `sign_file` produced over its sha512
digest with the private key, checked with the matching public key,
reports success; when the path carries one of the checked extensions the
result is exactly `valid`. -/
theorem roundTrip_verify_valid (H : HashModel) (path : String) (data : List Nat) (k : Nat) :
    (ManageSecurity.verify_file H path data
      { storedHashes := some (ManageSecurity.calculate_hashes H (some data)),
        storedSig := ManageSecurity.sign_file H (some k) (some data),
        pubKey := some k }).toBool = true
    ∧ ((ManageSecurity.securityExtensions.any fun ext => endsWithL path ext) = true →
      ManageSecurity.verify_file H path data
        { storedHashes := some (ManageSecurity.calculate_hashes H (some data)),
          storedSig := ManageSecurity.sign_file H (some k) (some data),
          pubKey := some k } = .valid) := by
  by_cases hext : (ManageSecurity.securityExtensions.any fun ext => endsWithL path ext) = true
  · have hv := ManageSecurity.verify_file_of_sections H path data
      { storedHashes := some (ManageSecurity.calculate_hashes H (some data)),
        storedSig := ManageSecurity.sign_file H (some k) (some data),
        pubKey := some k } hext
      (ManageSecurity.hashSection_roundtrip H data _ rfl)
      (ManageSecurity.sigSection_roundtrip H data k _ rfl rfl)
    exact ⟨by rw [hv]; rfl, fun _ => hv⟩
  · have hfalse : (ManageSecurity.securityExtensions.any fun ext => endsWithL path ext) = false :=
      Bool.eq_false_iff.mpr (fun hb => hext hb)
    have hv : ManageSecurity.verify_file H path data
        { storedHashes := some (ManageSecurity.calculate_hashes H (some data)),
          storedSig := ManageSecurity.sign_file H (some k) (some data),
          pubKey := some k } = .skippedExtension := by
      unfold ManageSecurity.verify_file
      rw [hfalse, if_pos rfl]
    exact ⟨by rw [hv]; rfl, fun hb => absurd hb hext⟩

/-- Witness for C1 at a concrete input. -/
theorem roundTrip_verify_valid_witness :
    (ManageSecurity.verify_file toyHash "app.exe" [0, 1]
      { storedHashes := some (ManageSecurity.calculate_hashes toyHash (some [0, 1])),
        storedSig := ManageSecurity.sign_file toyHash (some 5) (some [0, 1]),
        pubKey := some 5 }).toBool = true
    ∧ ManageSecurity.verify_file toyHash "app.exe" [0, 1]
        { storedHashes := some (ManageSecurity.calculate_hashes toyHash (some [0, 1])),
          storedSig := ManageSecurity.sign_file toyHash (some 5) (some [0, 1]),
          pubKey := some 5 } = .valid :=
  ⟨(roundTrip_verify_valid toyHash "app.exe" [0, 1] 5).1,
   (roundTrip_verify_valid toyHash "app.exe" [0, 1] 5).2 (by decide)⟩

/-- Claim C3: fail-fast hash comparison — `verify_file` compares per
algorithm in canonical order and returns the mismatch of the FIRST
differing algorithm immediately.  First conjunct: a stored sha256 entry
that differs from the current digest yields `hashMismatch "sha256"`,
with the stored sha512 entry, the stored signature and the public key
arbitrary (so neither the later algorithm nor the signature is ever
consulted).  Second conjunct: when the sha256 entries agree and the
stored sha512 entry is the first to differ, the result is
`hashMismatch "sha512"`, again with the signature state arbitrary.
The single-byte-mutation scenario is the first conjunct's instance
where the stored entry is the original bytes' digest and the mutated
bytes hash differently. -/
theorem hash_mismatch_failfast (H : HashModel) (path : String) (data : List Nat)
    (st : ManageSecurity.SecurityState) (saved : List (String × String))
    (hext : (ManageSecurity.securityExtensions.any fun ext => endsWithL path ext) = true)
    (hst : st.storedHashes = some saved) :
    (∀ s256, dictGet "sha256" saved = some s256 →
      s256 ≠ H.hashHex "sha256" data →
      ManageSecurity.verify_file H path data st = .hashMismatch "sha256")
    ∧ (∀ s512, dictGet "sha256" saved = some (H.hashHex "sha256" data) →
      dictGet "sha512" saved = some s512 →
      s512 ≠ H.hashHex "sha512" data →
      ManageSecurity.verify_file H path data st = .hashMismatch "sha512") := by
  constructor
  · intro s256 h256 hne
    refine ManageSecurity.verify_file_hash_fail H path data st _ hext ?_
    unfold ManageSecurity.hashSection
    rw [hst]
    simp only [ManageSecurity.securityHashAlgorithms, ManageSecurity.checkHashLoop, h256,
      ManageSecurity.dictGet_calculate_sha256]
    rw [if_pos hne]
  · intro s512 h256 h512 hne
    refine ManageSecurity.verify_file_hash_fail H path data st _ hext ?_
    unfold ManageSecurity.hashSection
    rw [hst]
    simp only [ManageSecurity.securityHashAlgorithms, ManageSecurity.checkHashLoop, h256, h512,
      ManageSecurity.dictGet_calculate_sha256, ManageSecurity.dictGet_calculate_sha512]
    rw [if_neg (fun h => h rfl), if_pos hne]

/-- Witness for C3 at concrete inputs: first a mutated artifact (stored
digests of the original byte 0, current byte 1) hitting the sha256
mismatch; then a store whose sha256 entry matches but whose sha512 entry
is corrupt, hitting the sha512 mismatch — both with no signature and no
public key present. -/
theorem hash_mismatch_failfast_witness :
    ManageSecurity.verify_file toyHash "app.exe" [1]
      { storedHashes := some (ManageSecurity.calculate_hashes toyHash (some [0])),
        storedSig := none, pubKey := none } = .hashMismatch "sha256"
    ∧ ManageSecurity.verify_file toyHash "app.exe" [1]
      { storedHashes := some [("sha256", toyHash.hashHex "sha256" [1]), ("sha512", "corrupt")],
        storedSig := none, pubKey := none } = .hashMismatch "sha512" :=
  ⟨(hash_mismatch_failfast toyHash "app.exe" [1]
      { storedHashes := some (ManageSecurity.calculate_hashes toyHash (some [0])),
        storedSig := none, pubKey := none }
      (ManageSecurity.calculate_hashes toyHash (some [0]))
      (by decide) rfl).1 (toyHash.hashHex "sha256" [0]) rfl (by decide),
   (hash_mismatch_failfast toyHash "app.exe" [1]
      { storedHashes := some [("sha256", toyHash.hashHex "sha256" [1]), ("sha512", "corrupt")],
        storedSig := none, pubKey := none }
      [("sha256", toyHash.hashHex "sha256" [1]), ("sha512", "corrupt")]
      (by decide) rfl).2 "corrupt" rfl rfl (by decide)⟩

/-- Counterexample to C4 as stated: the stored signature is absent, yet
the result is `hashMismatch "sha256"` — digest recomputation and
comparison DID run and their verdict took precedence, so the claim's
"returns MissingMetadata ... regardless of the artifact's digests" is
false on this input. -/
theorem missing_sig_hash_mismatch_cex :
    ManageSecurity.verify_file toyHash "app.exe" [1]
      { storedHashes := some [("sha256", "deadbeef")], storedSig := none, pubKey := some 0 }
      = .hashMismatch "sha256"
    ∧ ManageSecurity.VerifyResult.hashMismatch "sha256" ≠ .missingSigFile
    ∧ ManageSecurity.VerifyResult.hashMismatch "sha256" ≠ .missingHashFile := by
  refine ⟨by decide, by decide, by decide⟩

/-- Claim C4 as amended: a missing stored digest set yields
`missingHashFile` (a MissingMetadata outcome) for any artifact bytes;
with the digest set present and matching, a missing signature file
yields `missingSigFile` (a MissingMetadata outcome, never
`sigInvalid`); but when the signature is absent the digest
recomputation and comparison still run first, and a sha256 mismatch
yields `hashMismatch "sha256"` instead. -/
theorem missing_metadata_behavior (H : HashModel) (path : String) (data : List Nat)
    (st : ManageSecurity.SecurityState)
    (hext : (ManageSecurity.securityExtensions.any fun ext => endsWithL path ext) = true) :
    (st.storedHashes = none →
      ManageSecurity.verify_file H path data st = .missingHashFile)
    ∧ (∀ pk, st.pubKey = some pk →
        st.storedHashes = some (ManageSecurity.calculate_hashes H (some data)) →
        st.storedSig = none →
        ManageSecurity.verify_file H path data st = .missingSigFile)
    ∧ (∀ saved stored, st.storedHashes = some saved →
        dictGet "sha256" saved = some stored →
        stored ≠ H.hashHex "sha256" data →
        st.storedSig = none →
        ManageSecurity.verify_file H path data st = .hashMismatch "sha256") := by
  refine ⟨?_, ?_, ?_⟩
  · intro h
    refine ManageSecurity.verify_file_hash_fail H path data st _ hext ?_
    unfold ManageSecurity.hashSection
    rw [h]
  · intro pk hpk hsth hsig
    refine ManageSecurity.verify_file_sig_fail H path data st _ hext
      (ManageSecurity.hashSection_roundtrip H data st hsth) ?_
    unfold ManageSecurity.sigSection
    rw [hpk, hsig]
  · intro saved stored hsth hget hne _hsig
    refine ManageSecurity.verify_file_hash_fail H path data st _ hext ?_
    unfold ManageSecurity.hashSection
    rw [hsth]
    simp only [ManageSecurity.securityHashAlgorithms, ManageSecurity.checkHashLoop, hget,
      ManageSecurity.dictGet_calculate_sha256]
    rw [if_pos hne]

/-- Witness for C4's amended claim at concrete inputs. -/
theorem missing_metadata_behavior_witness :
    ManageSecurity.verify_file toyHash "app.exe" [2]
      { storedHashes := none, storedSig := none, pubKey := some 0 } = .missingHashFile
    ∧ ManageSecurity.verify_file toyHash "app.exe" [2]
      { storedHashes := some (ManageSecurity.calculate_hashes toyHash (some [2])),
        storedSig := none, pubKey := some 0 } = .missingSigFile := by
  refine ⟨(missing_metadata_behavior toyHash "app.exe" [2]
    { storedHashes := none, storedSig := none, pubKey := some 0 } (by decide)).1 rfl,
    (missing_metadata_behavior toyHash "app.exe" [2]
      { storedHashes := some (ManageSecurity.calculate_hashes toyHash (some [2])),
        storedSig := none, pubKey := some 0 } (by decide)).2.1 0 rfl rfl rfl⟩

/-- Claim C8: extension-whitelist bypass — any file whose name ends in
none of `.exe .dll .so .dylib .rom` is reported valid immediately by
`verify_file` (exit code 0), with the stored metadata, the artifact
bytes and the hash model all irrelevant. -/
theorem extension_whitelist_bypass (H : HashModel) (path : String) (data : List Nat)
    (st : ManageSecurity.SecurityState)
    (hext : (ManageSecurity.securityExtensions.any fun ext => endsWithL path ext) = false) :
    ManageSecurity.verify_file H path data st = .skippedExtension
    ∧ ManageSecurity.verifyExit H path data st = 0 := by
  have h1 : ManageSecurity.verify_file H path data st = .skippedExtension := by
    unfold ManageSecurity.verify_file
    rw [hext, if_pos rfl]
  exact ⟨h1, by unfold ManageSecurity.verifyExit; rw [h1]; rfl⟩

/-- Witness for C8: a `.tar.gz` release archive with tampered stored
digests and no signature is still reported valid. -/
theorem extension_whitelist_bypass_witness :
    ManageSecurity.verify_file toyHash "demo.tar.gz" [7]
      { storedHashes := some [("sha256", "tampered")], storedSig := none, pubKey := none }
      = .skippedExtension
    ∧ ManageSecurity.verifyExit toyHash "demo.tar.gz" [7]
      { storedHashes := some [("sha256", "tampered")], storedSig := none, pubKey := none }
      = 0 :=
  extension_whitelist_bypass toyHash "demo.tar.gz" [7]
    { storedHashes := some [("sha256", "tampered")], storedSig := none, pubKey := none }
    (by decide)

/-- Counterexample to C7 as stated: for an unreadable file the digest
operation does not propagate an IOError — the `except` handler returns
the empty dict, exactly the silent empty DigestSet the claim rules
out. -/
theorem calculate_hashes_empty_on_error_cex :
    ManageSecurity.calculate_hashes toyHash none = [] := rfl

/-- Claim C7 as amended: on a read failure `calculate_hashes` catches
the exception and returns the empty dict instead of propagating an
IOError; the empty dict is the failure signal — it can never arise for a
readable file, and the `hash` CLI command maps it to exit code 1. -/
theorem calculate_hashes_error_default (H : HashModel) :
    ManageSecurity.calculate_hashes H none = []
    ∧ ManageSecurity.hashCommand H none = 1
    ∧ ∀ data, ManageSecurity.calculate_hashes H (some data) ≠ [] := by
  refine ⟨rfl, rfl, ?_⟩
  intro data h
  simp [ManageSecurity.calculate_hashes, ManageSecurity.securityHashAlgorithms] at h

/-- Claim C9: packaging 'verification' never compares — for a readable
package with the private key present, `verify_package` returns `True`
and replaces the stored digest files and signature with values computed
freshly from the current bytes; its entire outcome is independent of the
previously persisted metadata, so tampering is never detected. -/
theorem verify_package_no_comparison (H : HashModel) (name : String) (data : List Nat)
    (k : Nat) (prior prior₂ : ManagePackage.PackageStored) :
    (ManagePackage.verify_package H name (some data) (some k) prior).1 = true
    ∧ (ManagePackage.verify_package H name (some data) (some k) prior).2
      = { hashFiles := ManagePackage.packageHashFiles H name data,
          sigFile := some (rsaSign ManagePackage.packagePSS
            (strBytes (H.hashHex "sha256" data)) k) }
    ∧ ManagePackage.verify_package H name (some data) (some k) prior
      = ManagePackage.verify_package H name (some data) (some k) prior₂ :=
  ⟨rfl, rfl, rfl⟩

/-- Counterexample to C6 as stated: the signing invocation inside
manage_package's `verify_package` uses MGF1(SHA-256) and `MAX_LENGTH`
salt (modelled `none`), not MGF1(SHA-512) with a 64-byte salt. -/
theorem package_signer_params_cex :
    ((ManagePackage.verify_package toyHash "pkg.zip" (some [0]) (some 7)
        { hashFiles := [], sigFile := none }).2.sigFile.map Sig.params)
      = some { mgfHash := "sha256", saltLen := none, sigHash := "sha256" }
    ∧ (some { mgfHash := "sha256", saltLen := none, sigHash := "sha256" } : Option PSS)
      ≠ some ManageSecurity.securityPSS :=
  ⟨rfl, by decide⟩

/-- Claim C6 as amended: manage_security's `sign_file` signs the raw
sha512 digest bytes (not a hash of the hex string) with RSA-PSS,
MGF1(SHA-512) and salt length exactly 64; the other signing invocation,
inside manage_package's `verify_package`, instead signs the ASCII hex
encoding of the sha256 digest with MGF1(SHA-256) and `MAX_LENGTH`
salt. -/
theorem signer_parameters_amended (H : HashModel) (k : Nat) (data : List Nat)
    (name : String) (prior : ManagePackage.PackageStored) :
    ManageSecurity.sign_file H (some k) (some data)
      = some { params := { mgfHash := "sha512", saltLen := some 64, sigHash := "sha512" },
               message := H.hashRaw "sha512" data, key := k }
    ∧ (ManagePackage.verify_package H name (some data) (some k) prior).2.sigFile
      = some { params := { mgfHash := "sha256", saltLen := none, sigHash := "sha256" },
               message := strBytes (H.hashHex "sha256" data), key := k } :=
  ⟨rfl, rfl⟩

/-- Claim C10: signer/verifier message mismatch — the signature that
manage_package's `verify_package` persists (over the hex of the sha256
digest) always fails manage_dist's `verify_packages` signature check
(which verifies against the hex of sha512, the last algorithm its hash
loop iterates), with the matching key and untampered bytes: the digest
comparisons pass and the outcome is exactly the invalid-signature
failure. -/
theorem package_sig_fails_dist_verification (H : HashModel) (name : String)
    (data : List Nat) (k : Nat) (prior : ManagePackage.PackageStored) :
    ManageDist.distVerifyOne H k
      { name := name, file := data,
        hashFiles := (ManagePackage.verify_package H name (some data) (some k) prior).2.hashFiles,
        sigFile := (ManagePackage.verify_package H name (some data) (some k) prior).2.sigFile }
      = some .sigInvalid := by
  have e256 : dictGet "sha256" (ManagePackage.packageHashFiles H name data)
      = some (ManagePackage.hashFileContent (H.hashHex "sha256" data) name) := rfl
  have e512 : dictGet "sha512" (ManagePackage.packageHashFiles H name data)
      = some (ManagePackage.hashFileContent (H.hashHex "sha512" data) name) := rfl
  have f256 := firstToken_hashFileContent (H.hashHex "sha256" data) name
    (hashHex_toList_ne_nil H _ _) (hashHex_not_ws H _ _)
  have f512 := firstToken_hashFileContent (H.hashHex "sha512" data) name
    (hashHex_toList_ne_nil H _ _) (hashHex_not_ws H _ _)
  have hloop : ManageDist.distHashLoop H data (ManagePackage.packageHashFiles H name data)
      ManageDist.distAlgorithms "" = Except.ok (H.hashHex "sha512" data) := by
    simp [ManageDist.distAlgorithms, ManageDist.distHashLoop, e256, e512, f256, f512]
  have hv : rsaVerify (rsaSign ManagePackage.packagePSS (strBytes (H.hashHex "sha256" data)) k)
      (strBytes (H.hashHex "sha512" data)) ManageDist.distPSS k = false := by
    unfold rsaVerify
    apply decide_eq_false
    intro h
    exact strBytes_hashHex_ne H data data (congrArg Sig.message h)
  show ManageDist.distVerifyOne H k
      { name := name, file := data,
        hashFiles := ManagePackage.packageHashFiles H name data,
        sigFile := some (rsaSign ManagePackage.packagePSS
          (strBytes (H.hashHex "sha256" data)) k) }
      = some .sigInvalid
  simp [ManageDist.distVerifyOne, hloop, ManageDist.distSignatureEnabled, hv]

namespace ManageDist

lemma verifyLoop_false_of_fail (H : HashModel) (pub : Nat) (l : List DistPackage)
    (p : DistPackage) (f : DistFail) (hp : p ∈ l)
    (hfail : distVerifyOne H pub p = some f) :
    (verifyLoop H pub l).1 = false := by
  induction l with
  | nil => cases hp
  | cons q rest ih =>
    rcases List.mem_cons.mp hp with h | h
    · subst h
      unfold verifyLoop
      rw [hfail]
    · cases hq : distVerifyOne H pub q with
      | some g => unfold verifyLoop; rw [hq]
      | none =>
        unfold verifyLoop
        rw [hq]
        exact ih h

end ManageDist

/-- Counterexample to C5 as stated: a batch of two packages that both
fail verification (no metadata at all); the gate blocks, but its report
announces and explains only the first package — the second failing
package is never verified and never mentioned. -/
theorem gate_reports_first_failure_only_cex :
    ManageDist.verify_packages toyHash 0
      [("windows", [{ name := "a.zip", file := [0], hashFiles := [], sigFile := none },
                    { name := "b.zip", file := [1], hashFiles := [], sigFile := none }])]
      = (false, [.checking "a.zip", .failed (.missingHash "sha256")])
    ∧ ManageDist.DistMsg.checking "b.zip"
      ∉ (ManageDist.verify_packages toyHash 0
        [("windows", [{ name := "a.zip", file := [0], hashFiles := [], sigFile := none },
                      { name := "b.zip", file := [1], hashFiles := [], sigFile := none }])]).2 :=
  ⟨rfl, by decide⟩

/-- Claim C5 as amended: `verify_packages` is fail-fast across the
batch — the first failing package aborts it, and the blocked outcome
reports exactly that one package and its single reason; the remaining
packages, whatever they are, are never verified or mentioned. -/
theorem verify_packages_failfast (H : HashModel) (pub : Nat) (p : ManageDist.DistPackage)
    (rest : List ManageDist.DistPackage) (f : ManageDist.DistFail)
    (hfail : ManageDist.distVerifyOne H pub p = some f) :
    ManageDist.verifyLoop H pub (p :: rest)
      = (false, [.checking p.name, .failed f]) := by
  unfold ManageDist.verifyLoop
  rw [hfail]

/-- Witness for C5's amended claim at a concrete input. -/
theorem verify_packages_failfast_witness :
    ManageDist.verifyLoop toyHash 0
      [{ name := "a.zip", file := [0], hashFiles := [], sigFile := none },
       { name := "b.zip", file := [1], hashFiles := [], sigFile := none }]
      = (false, [.checking "a.zip", .failed (.missingHash "sha256")]) :=
  verify_packages_failfast toyHash 0
    { name := "a.zip", file := [0], hashFiles := [], sigFile := none }
    [{ name := "b.zip", file := [1], hashFiles := [], sigFile := none }]
    (.missingHash "sha256") rfl

/-- Claim C2: gate atomicity — if any package of the batch fails
verification, the publish command exits 1 having made zero publish calls
to any channel, for every platform selection and every channel
outcome. -/
theorem gate_blocks_without_publish (H : HashModel) (pub : Nat) (platform : String)
    (batch : List (String × List ManageDist.DistPackage))
    (chOk : ManageDist.Channel → Bool) (p : ManageDist.DistPackage) (f : ManageDist.DistFail)
    (hp : p ∈ (batch.map Prod.snd).flatten)
    (hfail : ManageDist.distVerifyOne H pub p = some f) :
    ManageDist.publishCommand H pub platform batch chOk = (1, []) := by
  have hv : (ManageDist.verify_packages H pub batch).1 = false := by
    unfold ManageDist.verify_packages
    rw [if_neg (by decide)]
    exact ManageDist.verifyLoop_false_of_fail H pub _ p f hp hfail
  unfold ManageDist.publishCommand
  by_cases h1 : (["github", "sourceforge", "itch", "all"].contains platform) = false
  · rw [if_pos h1]
  · rw [if_neg h1]
    by_cases h2 : batch.isEmpty = true
    · rw [if_pos h2]
    · rw [if_neg h2, if_pos hv]

/-- Witness for C2 at a concrete input: one bad package, platform `all`,
all channels willing to publish — still exit 1 and no publish call. -/
theorem gate_blocks_without_publish_witness :
    ManageDist.publishCommand toyHash 0 "all"
      [("windows", [{ name := "a.zip", file := [0], hashFiles := [], sigFile := none }])]
      (fun _ => true) = (1, []) :=
  gate_blocks_without_publish toyHash 0 "all"
    [("windows", [{ name := "a.zip", file := [0], hashFiles := [], sigFile := none }])]
    (fun _ => true)
    { name := "a.zip", file := [0], hashFiles := [], sigFile := none }
    (.missingHash "sha256") (by decide) rfl
